import Mathlib

/-!
Verification of the Firebase cloud function in `functions_js/index.js`.

The source registers a single auth `onCreate` handler, `createUserProfile`,
whose whole body is one Firestore write:

  db.collection("users").doc(user.uid).set({
    email: user.email || null,
    displayName: user.displayName || null,
    coin: 0,
    createdAt: admin.firestore.FieldValue.serverTimestamp(),
  })

We embed the JavaScript values the handler reads (with JS truthiness for the
`||` operator), the write request it constructs, Firestore `set` semantics
(full overwrite, server timestamps resolved at commit time), and the
promise/trace behaviour of the async handler.
-/

/-- JavaScript value of an optional string field on the auth event:
`undefined` (field absent), `null`, or a string. -/
inductive JSValue where
  | undefined
  | null
  | str (s : String)
  deriving DecidableEq, Repr

/-- JS truthiness restricted to the values above: only a non-empty string is
truthy; `undefined`, `null` and `""` are falsy. -/
def JSValue.truthy : JSValue → Bool
  | .str s => s ≠ ""
  | _ => false

/-- Embedding of the JavaScript `a || b` operator on these values: `a` when
`a` is truthy, otherwise `b`. -/
def jsOr (a b : JSValue) : JSValue :=
  if a.truthy then a else b

/-- Field value inside a Firestore document or write payload.
`serverTimestamp` is the opaque sentinel `FieldValue.serverTimestamp()`
placed in a write request; `timestamp t` is the concrete server-assigned
time the store substitutes for it at commit. -/
inductive FieldValue where
  | null
  | str (s : String)
  | int (n : Int)
  | serverTimestamp
  | timestamp (t : Nat)
  deriving DecidableEq, Repr

/-- Conversion of a JS value to the Firestore field value actually stored.
The handler only ever passes the result of `x || null`, so the argument is
either a truthy string or `null`; `undefined` is mapped like `null` for
totality but is unreachable on the code path. -/
def JSValue.toFieldValue : JSValue → FieldValue
  | .str s => .str s
  | _ => .null

/-- Firestore document: an ordered list of field-name/value pairs, in the
order the source object literal writes them. -/
def Document := List (String × FieldValue)
  deriving DecidableEq, Repr

/-- Auth user record delivered by the `onCreate` trigger. `uid`, `email`
and `displayName` are the fields the handler reads; the remaining fields
model the rest of the Firebase `UserRecord`, which the handler ignores. -/
structure AuthUser where
  uid : String
  email : JSValue
  displayName : JSValue
  photoURL : JSValue
  phoneNumber : JSValue
  emailVerified : Bool
  disabled : Bool
  deriving DecidableEq, Repr

/-- Firestore write request, as produced by
`db.collection(c).doc(k).set(payload)`. -/
structure WriteRequest where
  collection : String
  docId : String
  payload : Document
  deriving DecidableEq, Repr

/-- The write request the handler body constructs for an auth user:
collection `"users"`, key `user.uid`, and the object literal from the
source, field by field and in source order. -/
def createUserProfile (user : AuthUser) : WriteRequest :=
  { collection := "users"
    docId := user.uid
    payload :=
      [ ("email", (jsOr user.email .null).toFieldValue)
      , ("displayName", (jsOr user.displayName .null).toFieldValue)
      , ("coin", .int 0)
      , ("createdAt", .serverTimestamp) ] }

/-- State of the document store: each collection/key pair holds at most one
document. -/
def FirestoreState := String → String → Option Document

/-- The empty store. -/
def emptyStore : FirestoreState := fun _ _ => none

/-- Commit-time resolution of the server-timestamp sentinel: the store
replaces every `serverTimestamp` sentinel in the payload with the concrete
server time `t`. -/
def resolveTimestamps (t : Nat) (d : Document) : Document :=
  d.map (fun kv => (kv.1, if kv.2 = .serverTimestamp then .timestamp t else kv.2))

/-- Firestore `set` semantics: a full create-or-overwrite of the document at
the request's key (not a merge), with server timestamps resolved at server
time `t`. Every other document is untouched. -/
def applySet (st : FirestoreState) (req : WriteRequest) (t : Nat) : FirestoreState :=
  fun c k =>
    if c = req.collection ∧ k = req.docId then some (resolveTimestamps t req.payload)
    else st c k

/-- Outcome of the single write, decided by the store: acknowledged at
server time `t`, or failed. -/
inductive WriteOutcome where
  | acked (t : Nat)
  | failed
  deriving DecidableEq, Repr

/-- Error signalled to the platform when the handler's promise rejects. -/
inductive HandlerError where
  | writeFailed
  deriving DecidableEq, Repr

/-- End-to-end behaviour of one invocation: the handler unconditionally
issues the write built by `createUserProfile` and returns the write's own
promise, so its result is exactly the write's result — the new store state
on an acknowledged write, failure on a failed write. No catch, no
suppression, no compensating action. -/
def runHandler (st : FirestoreState) (user : AuthUser) (outcome : WriteOutcome) :
    Except HandlerError FirestoreState :=
  match outcome with
  | .acked t => .ok (applySet st (createUserProfile user) t)
  | .failed => .error .writeFailed

/-- Observable events of one invocation, in order. -/
inductive TraceEvent where
  | writeIssued (req : WriteRequest)
  | writeAcked
  | writeFailed
  | handlerResolved
  | handlerRejected
  deriving DecidableEq, Repr

/-- Trace of one invocation. The handler body returns the `set(...)` promise
directly, so the handler's own promise settles exactly when the write's
promise settles: resolution can only follow the write's acknowledgement. -/
def invocationTrace (user : AuthUser) (outcome : WriteOutcome) : List TraceEvent :=
  TraceEvent.writeIssued (createUserProfile user) ::
    match outcome with
    | .acked _ => [TraceEvent.writeAcked, TraceEvent.handlerResolved]
    | .failed => [TraceEvent.writeFailed, TraceEvent.handlerRejected]

/-- Document stored at `users/uid` after a successful invocation acknowledged
at server time `t`. -/
def storedProfile (user : AuthUser) (t : Nat) : Document :=
  resolveTimestamps t (createUserProfile user).payload

/-- Boolean success of an `Except` result. -/
def exceptOk {ε α : Type} : Except ε α → Bool
  | .ok _ => true
  | .error _ => false

/-- Concrete user from the spec's first scenario. -/
def uAda : AuthUser :=
  { uid := "abc123", email := .str "a@example.com", displayName := .str "Ada"
    photoURL := .undefined, phoneNumber := .undefined
    emailVerified := false, disabled := false }

/-- Variant of `uAda` differing only in fields the handler does not read. -/
def uAdaVariant : AuthUser :=
  { uAda with photoURL := .str "https://example.com/p.png", emailVerified := true }

/-- Concrete user whose email is present but equal to the empty string. -/
def uEmptyEmail : AuthUser :=
  { uid := "u1", email := .str "", displayName := .undefined
    photoURL := .undefined, phoneNumber := .undefined
    emailVerified := false, disabled := false }

/-- Concrete user with both optional fields absent (spec's second scenario). -/
def uBare : AuthUser :=
  { uid := "xyz789", email := .null, displayName := .null
    photoURL := .undefined, phoneNumber := .undefined
    emailVerified := false, disabled := false }

/-- Concrete user with email present and display name absent. -/
def uEmailOnly : AuthUser :=
  { uid := "u2", email := .str "a@example.com", displayName := .undefined
    photoURL := .undefined, phoneNumber := .undefined
    emailVerified := false, disabled := false }

theorem toFieldValue_ne_sentinel (v : JSValue) :
    v.toFieldValue ≠ FieldValue.serverTimestamp := by
  cases v <;> simp [JSValue.toFieldValue]

theorem storedProfile_eq (user : AuthUser) (t : Nat) :
    storedProfile user t =
      [ ("email", (jsOr user.email .null).toFieldValue)
      , ("displayName", (jsOr user.displayName .null).toFieldValue)
      , ("coin", FieldValue.int 0)
      , ("createdAt", FieldValue.timestamp t) ] := by
  simp [storedProfile, resolveTimestamps, createUserProfile, toFieldValue_ne_sentinel]

theorem applySet_hit (st : FirestoreState) (user : AuthUser) (t : Nat) :
    applySet st (createUserProfile user) t "users" user.uid =
      some (storedProfile user t) := by
  simp [applySet, createUserProfile, storedProfile]

/-- C1: after successful handling of an account-created event for user `u`,
the store holds a document at `users/u.uid` (the store maps each key to at
most one document, so it is the only one at that key) whose fields are
exactly `email`, `displayName`, `coin` and `createdAt`, in that order, with
`coin = 0` and `createdAt` a concrete server-assigned timestamp that is not
the null value. -/
theorem c1_profile_created (st : FirestoreState) (user : AuthUser) (t : Nat)
    (st2 : FirestoreState)
    (h : runHandler st user (WriteOutcome.acked t) = Except.ok st2) :
    st2 "users" user.uid = some (storedProfile user t) ∧
    (storedProfile user t).map Prod.fst = ["email", "displayName", "coin", "createdAt"] ∧
    List.lookup "coin" (storedProfile user t) = some (FieldValue.int 0) ∧
    List.lookup "createdAt" (storedProfile user t) = some (FieldValue.timestamp t) ∧
    (List.lookup "createdAt" (storedProfile user t) == some FieldValue.null) = false := by
  have hst : st2 = applySet st (createUserProfile user) t := by
    simpa [runHandler] using h.symm
  subst hst
  refine ⟨applySet_hit st user t, ?_, ?_, ?_, ?_⟩ <;>
    simp [storedProfile_eq, List.lookup]

/-- Witness for C1 at the spec's concrete scenario user and server time 5. -/
theorem c1_profile_created_witness :
    runHandler emptyStore uAda (WriteOutcome.acked 5) =
        Except.ok (applySet emptyStore (createUserProfile uAda) 5) ∧
      (applySet emptyStore (createUserProfile uAda) 5 "users" uAda.uid =
          some (storedProfile uAda 5) ∧
        (storedProfile uAda 5).map Prod.fst = ["email", "displayName", "coin", "createdAt"] ∧
        List.lookup "coin" (storedProfile uAda 5) = some (FieldValue.int 0) ∧
        List.lookup "createdAt" (storedProfile uAda 5) = some (FieldValue.timestamp 5) ∧
        (List.lookup "createdAt" (storedProfile uAda 5) == some FieldValue.null) = false) :=
  ⟨rfl, c1_profile_created emptyStore uAda 5 (applySet emptyStore (createUserProfile uAda) 5) rfl⟩

/-- C2 counterexample: for the event `uEmptyEmail`, whose email is present
and equal to `""` and whose display name is absent, the stored `email` field
is `null`, not the given value `""` — the JS `user.email || null` maps the
falsy empty string to `null`, so the claim as stated fails. -/
theorem c2_counterexample :
    uEmptyEmail.email = JSValue.str "" ∧
    List.lookup "email" (createUserProfile uEmptyEmail).payload ≠ some (FieldValue.str "") ∧
    List.lookup "email" (createUserProfile uEmptyEmail).payload = some FieldValue.null := by
  refine ⟨rfl, ?_, ?_⟩ <;> simp [createUserProfile, uEmptyEmail, jsOr, JSValue.truthy,
    JSValue.toFieldValue, List.lookup]

/-- C2 (amended): for an event whose email is present and non-empty and whose
display name is absent, the stored record has `email` equal to the given
value and `displayName = null`; for an event with both fields absent, both
are stored as an explicit null and `coin = 0`. -/
theorem c2_stored_optional_fields (u1 u2 : AuthUser) (s : String)
    (he1 : u1.email = JSValue.str s) (hs : s ≠ "")
    (hd1 : u1.displayName = JSValue.undefined ∨ u1.displayName = JSValue.null)
    (he2 : u2.email = JSValue.undefined ∨ u2.email = JSValue.null)
    (hd2 : u2.displayName = JSValue.undefined ∨ u2.displayName = JSValue.null) :
    (List.lookup "email" (createUserProfile u1).payload = some (FieldValue.str s) ∧
      List.lookup "displayName" (createUserProfile u1).payload = some FieldValue.null) ∧
    (List.lookup "email" (createUserProfile u2).payload = some FieldValue.null ∧
      List.lookup "displayName" (createUserProfile u2).payload = some FieldValue.null ∧
      List.lookup "coin" (createUserProfile u2).payload = some (FieldValue.int 0)) := by
  refine ⟨⟨?_, ?_⟩, ?_, ?_, ?_⟩
  · simp [createUserProfile, he1, jsOr, JSValue.truthy, hs, JSValue.toFieldValue, List.lookup]
  · rcases hd1 with h | h <;>
      simp [createUserProfile, h, jsOr, JSValue.truthy, JSValue.toFieldValue, List.lookup]
  · rcases he2 with h | h <;>
      simp [createUserProfile, h, jsOr, JSValue.truthy, JSValue.toFieldValue, List.lookup]
  · rcases hd2 with h | h <;>
      simp [createUserProfile, h, jsOr, JSValue.truthy, JSValue.toFieldValue, List.lookup]
  · simp [createUserProfile, List.lookup]

/-- Witness for the amended C2: a user with email present and display name
absent, and the bare user `xyz789` with both fields absent. -/
theorem c2_stored_optional_fields_witness :
    ((List.lookup "email" (createUserProfile uEmailOnly).payload =
        some (FieldValue.str "a@example.com") ∧
      List.lookup "displayName" (createUserProfile uEmailOnly).payload = some FieldValue.null) ∧
    (List.lookup "email" (createUserProfile uBare).payload = some FieldValue.null ∧
      List.lookup "displayName" (createUserProfile uBare).payload = some FieldValue.null ∧
      List.lookup "coin" (createUserProfile uBare).payload = some (FieldValue.int 0))) :=
  c2_stored_optional_fields uEmailOnly uBare "a@example.com" rfl (by decide)
    (Or.inl rfl) (Or.inr rfl) (Or.inr rfl)

/-- C3: the handler's asynchronous result fails exactly when the write
fails — the body returns the `set(...)` promise with no catch, so the
result is not a success if and only if the write outcome is `failed`. -/
theorem c3_failure_propagation (st : FirestoreState) (user : AuthUser)
    (outcome : WriteOutcome) :
    exceptOk (runHandler st user outcome) = false ↔ outcome = WriteOutcome.failed := by
  cases outcome <;> simp [runHandler, exceptOk]

/-- C4: idempotence up to the timestamp. Handling the same event twice, at
server times `t1` then `t2`, stores the freshly built profile after each
invocation, with `coin = 0` both times; the two stored documents agree on
every field other than `createdAt`; and the store after the second
invocation equals the store after a single invocation at `t2`, so exactly
one document is left at the key. -/
theorem c4_idempotent_up_to_timestamp (st : FirestoreState) (user : AuthUser)
    (t1 t2 : Nat) :
    applySet st (createUserProfile user) t1 "users" user.uid =
        some (storedProfile user t1) ∧
    applySet (applySet st (createUserProfile user) t1) (createUserProfile user) t2
        "users" user.uid = some (storedProfile user t2) ∧
    List.lookup "coin" (storedProfile user t1) = some (FieldValue.int 0) ∧
    List.lookup "coin" (storedProfile user t2) = some (FieldValue.int 0) ∧
    (storedProfile user t1).filter (fun kv => !(kv.1 == "createdAt")) =
      (storedProfile user t2).filter (fun kv => !(kv.1 == "createdAt")) ∧
    applySet (applySet st (createUserProfile user) t1) (createUserProfile user) t2 =
      applySet st (createUserProfile user) t2 := by
  refine ⟨applySet_hit _ user t1, applySet_hit _ user t2, ?_, ?_, ?_, ?_⟩
  · simp [storedProfile_eq, List.lookup]
  · simp [storedProfile_eq, List.lookup]
  · simp [storedProfile_eq, List.filter, toFieldValue_ne_sentinel]
  · funext c k
    by_cases h : c = "users" ∧ k = user.uid <;>
      simp [applySet, createUserProfile, h]

/-- C5: the write is a full create-or-overwrite. Whatever document (if any)
was previously stored at the event's key — including one with a non-zero
`coin` — after a successful invocation the document at that key is exactly
the freshly constructed default record, with `coin` back at 0. -/
theorem c5_set_overwrites (st : FirestoreState) (user : AuthUser) (t : Nat) :
    applySet st (createUserProfile user) t "users" user.uid =
        some (storedProfile user t) ∧
    List.lookup "coin" (storedProfile user t) = some (FieldValue.int 0) := by
  exact ⟨applySet_hit st user t, by simp [storedProfile_eq, List.lookup]⟩

/-- C6: in the write request itself — before the store commits anything —
the `createdAt` field is the opaque server-timestamp sentinel, and the
concrete time only appears once the store resolves the sentinel at commit
with its own clock value `t`. -/
theorem c6_createdAt_is_sentinel (user : AuthUser) (t : Nat) :
    List.lookup "createdAt" (createUserProfile user).payload =
        some FieldValue.serverTimestamp ∧
    List.lookup "createdAt" (storedProfile user t) = some (FieldValue.timestamp t) := by
  constructor
  · simp [createUserProfile, List.lookup]
  · simp [storedProfile_eq, List.lookup]

/-- Concrete user whose present fields are falsy (null email, empty-string
display name). -/
def uFalsy : AuthUser :=
  { uid := "u3", email := .null, displayName := .str ""
    photoURL := .undefined, phoneNumber := .undefined
    emailVerified := false, disabled := false }

/-- Concrete mixed event: email present but empty (falsy) beside a truthy
display name. -/
def uMixed : AuthUser :=
  { uid := "u4", email := .str "", displayName := .str "Ada"
    photoURL := .undefined, phoneNumber := .undefined
    emailVerified := false, disabled := false }

/-- C7: the handler never resolves before the write is acknowledged. In any
invocation trace, if `handlerResolved` occurs at position `i`, then
`writeAcked` occurs at position 1 and `1 < i` — the handler returns the
write's own promise, so its resolution strictly follows the store's
acknowledgement. -/
theorem c7_resolves_only_after_ack (user : AuthUser) (outcome : WriteOutcome)
    (i : Nat)
    (h : (invocationTrace user outcome)[i]? = some TraceEvent.handlerResolved) :
    (invocationTrace user outcome)[1]? = some TraceEvent.writeAcked ∧ 1 < i := by
  cases outcome with
  | acked t =>
      match i with
      | 0 => simp [invocationTrace] at h
      | 1 => simp [invocationTrace] at h
      | 2 => exact ⟨by simp [invocationTrace], by omega⟩
      | n + 3 => simp [invocationTrace] at h
  | failed =>
      match i with
      | 0 => simp [invocationTrace] at h
      | 1 => simp [invocationTrace] at h
      | 2 => simp [invocationTrace] at h
      | n + 3 => simp [invocationTrace] at h

/-- Witness for C7: in the successful trace for `uAda`, resolution sits at
position 2, strictly after the acknowledgement at position 1. -/
theorem c7_resolves_only_after_ack_witness :
    (invocationTrace uAda (WriteOutcome.acked 5))[2]? = some TraceEvent.handlerResolved ∧
    ((invocationTrace uAda (WriteOutcome.acked 5))[1]? = some TraceEvent.writeAcked ∧
      1 < 2) :=
  ⟨rfl, c7_resolves_only_after_ack uAda (WriteOutcome.acked 5) 2 rfl⟩

/-- C8: every falsy email or display-name value — and falsy means exactly
absent (`undefined`), `null`, or the empty string — is stored as `null`,
never as the empty string. The two fields are quantified independently
(`u1` for the email, `u2` for the display name), so the theorem covers
events whose other field is truthy. -/
theorem c8_falsy_fields_stored_null (u1 u2 : AuthUser)
    (he : u1.email.truthy = false) (hd : u2.displayName.truthy = false) :
    List.lookup "email" (createUserProfile u1).payload = some FieldValue.null ∧
    (u1.email = JSValue.undefined ∨ u1.email = JSValue.null ∨
      u1.email = JSValue.str "") ∧
    List.lookup "displayName" (createUserProfile u2).payload = some FieldValue.null ∧
    (u2.displayName = JSValue.undefined ∨ u2.displayName = JSValue.null ∨
      u2.displayName = JSValue.str "") := by
  refine ⟨?_, ?_, ?_, ?_⟩
  · simp [createUserProfile, jsOr, he, JSValue.toFieldValue, List.lookup]
  · cases h1 : u1.email with
    | undefined => exact Or.inl rfl
    | null => exact Or.inr (Or.inl rfl)
    | str s =>
        rw [h1] at he
        simp [JSValue.truthy] at he
        exact Or.inr (Or.inr (by rw [he]))
  · simp [createUserProfile, jsOr, hd, JSValue.toFieldValue, List.lookup]
  · cases h1 : u2.displayName with
    | undefined => exact Or.inl rfl
    | null => exact Or.inr (Or.inl rfl)
    | str s =>
        rw [h1] at hd
        simp [JSValue.truthy] at hd
        exact Or.inr (Or.inr (by rw [hd]))

/-- Witness for C8 at mixed events: `uMixed` has an empty-string email next
to a truthy display name, and `uFalsy` an empty-string display name; each
falsy field is stored as `null` even though the sibling field is truthy or
differs. -/
theorem c8_falsy_fields_stored_null_witness :
    List.lookup "email" (createUserProfile uMixed).payload = some FieldValue.null ∧
    (uMixed.email = JSValue.undefined ∨ uMixed.email = JSValue.null ∨
      uMixed.email = JSValue.str "") ∧
    List.lookup "displayName" (createUserProfile uFalsy).payload = some FieldValue.null ∧
    (uFalsy.displayName = JSValue.undefined ∨ uFalsy.displayName = JSValue.null ∨
      uFalsy.displayName = JSValue.str "") :=
  c8_falsy_fields_stored_null uMixed uFalsy (by decide) (by decide)

/-- C9: the handler validates nothing. For every event — the statement is
universal over all users, including one whose `uid` is the empty string —
and every write outcome, the trace starts with the write being issued, keyed
by `user.uid` in the `users` collection; any rejection is the store's
`failed` outcome, never a handler-side check. -/
theorem c9_no_input_validation (user : AuthUser) (outcome : WriteOutcome) :
    (invocationTrace user outcome)[0]? =
        some (TraceEvent.writeIssued (createUserProfile user)) ∧
    (createUserProfile user).docId = user.uid ∧
    (createUserProfile user).collection = "users" := by
  refine ⟨?_, rfl, rfl⟩
  cases outcome <;> rfl

/-- C10: the write request is a function of `uid`, `email` and `displayName`
alone: two events agreeing on those three fields yield identical requests
(same collection, same key, same payload), whatever their other fields. -/
theorem c10_request_depends_only_on_read_fields (u1 u2 : AuthUser)
    (huid : u1.uid = u2.uid) (he : u1.email = u2.email)
    (hd : u1.displayName = u2.displayName) :
    createUserProfile u1 = createUserProfile u2 := by
  simp [createUserProfile, huid, he, hd]

/-- Witness for C10: `uAda` and `uAdaVariant` differ (in photo URL and
email-verified flag) yet produce the same write request. -/
theorem c10_request_depends_only_on_read_fields_witness :
    uAda.uid = uAdaVariant.uid ∧ uAda.email = uAdaVariant.email ∧
    uAda.displayName = uAdaVariant.displayName ∧
    (uAda == uAdaVariant) = false ∧
    createUserProfile uAda = createUserProfile uAdaVariant :=
  ⟨rfl, rfl, rfl, by decide,
    c10_request_depends_only_on_read_fields uAda uAdaVariant rfl rfl rfl⟩
